import Mathlib

/-!
Verification of the watchability-derivation pipeline and ingestion workflow
of the SpoilSport repository (Next.js + Netlify functions + Drizzle store).

The TypeScript sources are embedded shallowly:
* JS numbers used as integers are modelled as `ℤ`, timestamps as `ℤ`
  (epoch milliseconds), fractional arithmetic as `ℚ`.
* `Math.round x` is `⌊x + 1/2⌋` (JS rounds halves toward +∞).
* Nullable columns/fields are `Option`; database tables are lists of rows
  and row ids are drawn from per-table counters.
-/

/-- JS `Math.round`: round half toward positive infinity. -/
def jsRound (q : ℚ) : ℤ := ⌊q + 1/2⌋

namespace Nba

/-- Embedding of `getStage` from src/unnamed/part_003 (nba-helpers): stage from quarter
and clock-seconds.  The TS `Stage` union is modelled as `String`, matching
its runtime representation. -/
def getStage (quarter clockSeconds : ℤ) : String :=
  if quarter ≤ 2 then "early"
  else if quarter = 3 then "mid"
  else if quarter = 4 ∧ clockSeconds > 300 then "mid"
  else "late"

/-- Embedding of `isCompetitive` from src/unnamed/part_003: the TS `switch` over the
stage string, including its `default: return false` branch. -/
def isCompetitive (scoreDiff : ℤ) (stage : String) : Bool :=
  let absDiff := |scoreDiff|
  if stage = "early" then decide (absDiff ≤ 12)
  else if stage = "mid" then decide (absDiff ≤ 10)
  else if stage = "late" then decide (absDiff ≤ 8)
  else false

/-- Embedding of `getActivityLevel` from src/unnamed/part_003 (NBA: 720 s quarters,
55 combined points per quarter baseline). -/
def getActivityLevel (homeScore awayScore quarter clockSeconds : ℤ) : String :=
  let totalPoints : ℚ := (homeScore : ℚ) + (awayScore : ℚ)
  let quartersPlayed : ℚ := (quarter : ℚ) - 1 + (720 - (clockSeconds : ℚ)) / 720
  let expectedPoints : ℚ := quartersPlayed * 55
  if quartersPlayed < 0.5 then "medium"
  else
    let paceFactor := totalPoints / expectedPoints
    if paceFactor > 1.15 then "high"
    else if paceFactor < 0.85 then "low"
    else "medium"

/-- The `stageMultiplier` object literal of `calculateTensionScore` in
src/unnamed/part_003.  The TS object has exactly the three stage keys; the
value on any other string is never used by the source (a lookup there would
be `undefined`), and no theorem below evaluates it. -/
def stageMultiplier (stage : String) : ℚ :=
  if stage = "early" then 0.6
  else if stage = "mid" then 0.8
  else if stage = "late" then 1.0
  else 0

/-- Embedding of `calculateTensionScore` from src/unnamed/part_003 (NBA: decay 5 per
point, competitive bonus 1.2). -/
def calculateTensionScore (scoreDiff : ℤ) (stage : String) (competitive : Bool) : ℤ :=
  let absDiff : ℚ := |(scoreDiff : ℚ)|
  let tension0 : ℚ := max 0 (100 - absDiff * 5)
  let tension1 : ℚ := tension0 * stageMultiplier stage
  let tension2 : ℚ := if competitive then min 100 (tension1 * 1.2) else tension1
  jsRound tension2

end Nba

namespace Nfl

/-- Embedding of `getStage` from src/lib/nfl-helpers.ts (identical branch structure to
the NBA version). -/
def getStage (quarter clockSeconds : ℤ) : String :=
  if quarter ≤ 2 then "early"
  else if quarter = 3 then "mid"
  else if quarter = 4 ∧ clockSeconds > 300 then "mid"
  else "late"

/-- Embedding of `isCompetitive` from src/lib/nfl-helpers.ts (thresholds 14/11/8),
including the `default: return false` branch. -/
def isCompetitive (scoreDiff : ℤ) (stage : String) : Bool :=
  let absDiff := |scoreDiff|
  if stage = "early" then decide (absDiff ≤ 14)
  else if stage = "mid" then decide (absDiff ≤ 11)
  else if stage = "late" then decide (absDiff ≤ 8)
  else false

/-- Embedding of `getActivityLevel` from src/lib/nfl-helpers.ts (900 s quarters,
12 combined points per quarter baseline). -/
def getActivityLevel (homeScore awayScore quarter clockSeconds : ℤ) : String :=
  let totalPoints : ℚ := (homeScore : ℚ) + (awayScore : ℚ)
  let quartersPlayed : ℚ := (quarter : ℚ) - 1 + (900 - (clockSeconds : ℚ)) / 900
  let expectedPoints : ℚ := quartersPlayed * 12
  if quartersPlayed < 0.5 then "medium"
  else
    let paceFactor := totalPoints / expectedPoints
    if paceFactor > 1.25 then "high"
    else if paceFactor < 0.75 then "low"
    else "medium"

/-- The `stageMultiplier` object literal of the NFL `calculateTensionScore`. -/
def stageMultiplier (stage : String) : ℚ :=
  if stage = "early" then 0.5
  else if stage = "mid" then 0.75
  else if stage = "late" then 1.0
  else 0

/-- Embedding of `calculateTensionScore` from src/lib/nfl-helpers.ts (decay 7 per point,
competitive bonus 1.25). -/
def calculateTensionScore (scoreDiff : ℤ) (stage : String) (competitive : Bool) : ℤ :=
  let absDiff : ℚ := |(scoreDiff : ℚ)|
  let tension0 : ℚ := max 0 (100 - absDiff * 7)
  let tension1 : ℚ := tension0 * stageMultiplier stage
  let tension2 : ℚ := if competitive then min 100 (tension1 * 1.25) else tension1
  jsRound tension2

end Nfl

/-! ### Helper lemmas for the tension-score bound -/

lemma jsRound_bounds {q : ℚ} (h0 : 0 ≤ q) (h1 : q ≤ 100) :
    0 ≤ jsRound q ∧ jsRound q ≤ 100 := by
  unfold jsRound
  constructor
  · exact Int.le_floor.mpr (by push_cast; linarith)
  · have h : (⌊q + 1/2⌋ : ℤ) < 101 := Int.floor_lt.mpr (by push_cast; linarith)
    omega

lemma tension_pre_bounds (a k m bonus : ℚ) (ha : 0 ≤ a) (hk : 0 ≤ k)
    (hm0 : 0 ≤ m) (hm1 : m ≤ 1) (hb : 0 ≤ bonus) (c : Bool) :
    0 ≤ (if c then min 100 (max 0 (100 - a * k) * m * bonus)
         else max 0 (100 - a * k) * m) ∧
      (if c then min 100 (max 0 (100 - a * k) * m * bonus)
       else max 0 (100 - a * k) * m) ≤ 100 := by
  have hbase0 : (0 : ℚ) ≤ max 0 (100 - a * k) := le_max_left _ _
  have hbase1 : max 0 (100 - a * k) ≤ 100 := by
    apply max_le (by norm_num)
    nlinarith
  have h0 : (0 : ℚ) ≤ max 0 (100 - a * k) * m := mul_nonneg hbase0 hm0
  have h1 : max 0 (100 - a * k) * m ≤ 100 := by nlinarith
  cases c with
  | false => simpa using ⟨h0, h1⟩
  | true =>
    simp only [if_pos]
    exact ⟨le_min (by norm_num) (mul_nonneg h0 hb), min_le_left _ _⟩

lemma nba_mult_early : Nba.stageMultiplier "early" = 0.6 := rfl
lemma nba_mult_mid : Nba.stageMultiplier "mid" = 0.8 := rfl
lemma nba_mult_late : Nba.stageMultiplier "late" = 1.0 := rfl
lemma nfl_mult_early : Nfl.stageMultiplier "early" = 0.5 := rfl
lemma nfl_mult_mid : Nfl.stageMultiplier "mid" = 0.75 := rfl
lemma nfl_mult_late : Nfl.stageMultiplier "late" = 1.0 := rfl

lemma calc_bounds_generic (d : ℤ) (k m bonus : ℚ) (hk : 0 ≤ k)
    (hm0 : 0 ≤ m) (hm1 : m ≤ 1) (hb : 0 ≤ bonus) (c : Bool) :
    0 ≤ jsRound (if c then min 100 (max 0 (100 - |(d : ℚ)| * k) * m * bonus)
                 else max 0 (100 - |(d : ℚ)| * k) * m) ∧
      jsRound (if c then min 100 (max 0 (100 - |(d : ℚ)| * k) * m * bonus)
               else max 0 (100 - |(d : ℚ)| * k) * m) ≤ 100 := by
  have h := tension_pre_bounds |(d : ℚ)| k m bonus (abs_nonneg _) hk hm0 hm1 hb c
  exact jsRound_bounds h.1 h.2

/-- C3: for every integer score differential, every valid stage and every
competitive flag, both Tension Scorers (basketball decay 5, football decay
7) return an integer in [0,100]. -/
theorem c3_tension_score_range (d : ℤ) (s : String) (c : Bool)
    (hs : s = "early" ∨ s = "mid" ∨ s = "late") :
    (0 ≤ Nba.calculateTensionScore d s c ∧ Nba.calculateTensionScore d s c ≤ 100) ∧
    (0 ≤ Nfl.calculateTensionScore d s c ∧ Nfl.calculateTensionScore d s c ≤ 100) := by
  obtain h | h | h := hs <;> subst h <;>
    simp only [Nba.calculateTensionScore, Nfl.calculateTensionScore,
      nba_mult_early, nba_mult_mid, nba_mult_late,
      nfl_mult_early, nfl_mult_mid, nfl_mult_late] <;>
    exact ⟨calc_bounds_generic d 5 _ 1.2 (by norm_num) (by norm_num) (by norm_num)
             (by norm_num) c,
           calc_bounds_generic d 7 _ 1.25 (by norm_num) (by norm_num) (by norm_num)
             (by norm_num) c⟩

/-- C3 witness: the bound evaluated at a concrete input. -/
theorem c3_tension_score_range_witness :
    (0 ≤ Nba.calculateTensionScore 2 "late" true ∧
      Nba.calculateTensionScore 2 "late" true ≤ 100) ∧
    (0 ≤ Nfl.calculateTensionScore 2 "late" true ∧
      Nfl.calculateTensionScore 2 "late" true ≤ 100) :=
  c3_tension_score_range 2 "late" true (Or.inr (Or.inr rfl))

/-- C4 counterexample: at period 5 (overtime) with 400 seconds on the
clock — a period ≥ 4 with clockRemaining > 300 — both Stage Classifiers
return late, not mid as the claim's "period ≥ 4 returns mid when
clockRemaining > 300" clause states. -/
theorem c4_stage_counterexample :
    Nba.getStage 5 400 = "late" ∧ Nba.getStage 5 400 ≠ "mid" ∧
    Nfl.getStage 5 400 = "late" ∧ Nfl.getStage 5 400 ≠ "mid" := by decide

/-- C4 (amended): both Stage Classifiers return early for period ≤ 2, mid
for period = 3, mid for period = 4 with clockRemaining > 300, and late
otherwise; in particular every period ≥ 4 with clockRemaining ≤ 300 and
every overtime period (≥ 5, regardless of clock) yields late. -/
theorem c4_stage_classifier (q c : ℤ) :
    (q ≤ 2 → Nba.getStage q c = "early" ∧ Nfl.getStage q c = "early") ∧
    (q = 3 → Nba.getStage q c = "mid" ∧ Nfl.getStage q c = "mid") ∧
    (q = 4 → 300 < c → Nba.getStage q c = "mid" ∧ Nfl.getStage q c = "mid") ∧
    (4 ≤ q → c ≤ 300 → Nba.getStage q c = "late" ∧ Nfl.getStage q c = "late") ∧
    (5 ≤ q → Nba.getStage q c = "late" ∧ Nfl.getStage q c = "late") := by
  unfold Nba.getStage Nfl.getStage
  refine ⟨fun h => ?_, fun h => ?_, fun h hc => ?_, fun h hc => ?_, fun h => ?_⟩ <;>
    split_ifs <;> first | exact ⟨rfl, rfl⟩ | (exfalso; omega)

/-- C4 witness: the amended rule applied at period 4, 299 seconds left. -/
theorem c4_stage_classifier_witness :
    Nba.getStage 4 299 = "late" ∧ Nfl.getStage 4 299 = "late" :=
  (c4_stage_classifier 4 299).2.2.2.1 (by norm_num) (by norm_num)

/-- C5: the Competitiveness Classifiers return true exactly when the
absolute score differential is at most the sport/stage threshold
(basketball 12/10/8, football 14/11/8, boundary inclusive), and any
unknown stage string yields false. -/
theorem c5_competitiveness_thresholds (d : ℤ) (s : String) :
    (Nba.isCompetitive d "early" = true ↔ |d| ≤ 12) ∧
    (Nba.isCompetitive d "mid" = true ↔ |d| ≤ 10) ∧
    (Nba.isCompetitive d "late" = true ↔ |d| ≤ 8) ∧
    (Nfl.isCompetitive d "early" = true ↔ |d| ≤ 14) ∧
    (Nfl.isCompetitive d "mid" = true ↔ |d| ≤ 11) ∧
    (Nfl.isCompetitive d "late" = true ↔ |d| ≤ 8) ∧
    (s ≠ "early" → s ≠ "mid" → s ≠ "late" →
      Nba.isCompetitive d s = false ∧ Nfl.isCompetitive d s = false) := by
  unfold Nba.isCompetitive Nfl.isCompetitive
  refine ⟨by simp, by simp, by simp, by simp, by simp, by simp,
    fun h1 h2 h3 => by simp [h1, h2, h3]⟩

/-- C5 witness: boundary inclusivity at 12, exclusivity at 13, and an
unknown stage string. -/
theorem c5_competitiveness_witness :
    Nba.isCompetitive 12 "early" = true ∧
    Nba.isCompetitive 13 "early" ≠ true ∧
    Nfl.isCompetitive 0 "overtime" = false := by
  refine ⟨?_, ?_, ?_⟩
  · exact (c5_competitiveness_thresholds 12 "early").1.mpr (by decide)
  · intro h
    exact absurd ((c5_competitiveness_thresholds 13 "early").1.mp h) (by decide)
  · exact ((c5_competitiveness_thresholds 0 "overtime").2.2.2.2.2.2
      (by decide) (by decide) (by decide)).2

/-! ### Relational store (src/db/schema.ts, src/unnamed/part_005)

Tables are lists of rows; uuid primary keys are modelled by per-table
natural-number counters held in the `DB` record. -/

structure TeamRow where
  id : ℕ
  name : String
  league : String
deriving DecidableEq

structure GameRow where
  id : ℕ
  homeTeamId : ℕ
  awayTeamId : ℕ
  status : String
  scheduledTime : Option ℤ
  completedAt : Option ℤ
deriving DecidableEq

structure SnapshotRow where
  gameId : ℕ
  capturedAt : ℤ
  tensionScore : ℤ
  momentumShifts : ℤ
  leadChanges : ℤ
  closeFinish : Bool
  isFinal : Bool
  stage : Option String
  competitive : Option Bool
  activityLevel : Option String
  homeScore : Option ℤ
  awayScore : Option ℤ
deriving DecidableEq

structure ExpectationRow where
  gameId : Option ℕ
  sportKey : String
  externalEventId : String
  commenceTime : ℤ
  homeTeam : String
  awayTeam : String
  spreadHome : Option ℚ
  spreadAway : Option ℚ
  totalValue : Option ℚ
  totalOverPrice : Option ℚ
  totalUnderPrice : Option ℚ
  bookmaker : Option String
  source : String
  capturedAt : ℤ
deriving DecidableEq

structure DB where
  teams : List TeamRow
  games : List GameRow
  snapshots : List SnapshotRow
  expectations : List ExpectationRow
  nextTeamId : ℕ
  nextGameId : ℕ
deriving DecidableEq

/-! ### Odds API payloads (src/lib/odds-api/types.ts)

`commence_time` ISO strings are modelled as epoch milliseconds. -/

structure Outcome where
  name : String
  price : ℚ
  point : Option ℚ
deriving DecidableEq

structure Market where
  key : String
  outcomes : List Outcome
deriving DecidableEq

structure Bookmaker where
  key : String
  markets : List Market
deriving DecidableEq

structure OddsEvent where
  id : String
  sport_key : String
  commence_time : ℤ
  home_team : String
  away_team : String
  bookmakers : List Bookmaker
deriving DecidableEq

structure ScoreEntry where
  name : String
  score : Option String
deriving DecidableEq

structure ScoreEvent where
  id : String
  commence_time : ℤ
  home_team : String
  away_team : String
  completed : Bool
  scores : Option (List ScoreEntry)
deriving DecidableEq

structure NormalizedExpectation where
  externalEventId : String
  sportKey : String
  commenceTime : ℤ
  homeTeam : String
  awayTeam : String
  spreadHome : Option ℚ
  spreadAway : Option ℚ
  totalValue : Option ℚ
  totalOverPrice : Option ℚ
  totalUnderPrice : Option ℚ
  bookmaker : Option String
deriving DecidableEq

/-! ### Event Normalizer (src/unnamed/part_001, spreads+totals variant) -/

def preferredBookmakers : List String := ["fanduel", "draftkings", "betmgm", "caesars"]

/-- The `requiredMarkets.every(...)` test of `findBookmakerWithMarkets`. -/
def hasRequiredMarkets (b : Bookmaker) (required : List String) : Bool :=
  required.all (fun m => b.markets.any (fun mk => mk.key == m))

/-- The `for (const preferred of preferredBookmakers)` loop of
`findBookmakerWithMarkets`: first preferred key whose bookmaker has all
required markets wins. -/
def findPreferred (preferred : List String) (bookmakers : List Bookmaker)
    (required : List String) : Option Bookmaker :=
  match preferred with
  | [] => none
  | p :: ps =>
    match bookmakers.find? (fun b => b.key == p && hasRequiredMarkets b required) with
    | some b => some b
    | none => findPreferred ps bookmakers required

/-- Embedding of `findBookmakerWithMarkets` from src/unnamed/part_001: preferred
bookmakers first, then any bookmaker with all required markets. -/
def findBookmakerWithMarkets (bookmakers : List Bookmaker) (required : List String) :
    Option Bookmaker :=
  match findPreferred preferredBookmakers bookmakers required with
  | some b => some b
  | none => bookmakers.find? (fun b => hasRequiredMarkets b required)

/-- Embedding of `extractSpreads` from src/unnamed/part_001: (spreadHome, spreadAway). -/
def extractSpreads (market : Market) (homeTeam : String) : Option ℚ × Option ℚ :=
  let homeOutcome := market.outcomes.find? (fun o => o.name == homeTeam)
  let awayOutcome := market.outcomes.find? (fun o => o.name != homeTeam)
  (homeOutcome.bind Outcome.point, awayOutcome.bind Outcome.point)

/-- Embedding of `extractTotals` from src/unnamed/part_001:
(totalValue, totalOverPrice, totalUnderPrice). -/
def extractTotals (market : Market) : Option ℚ × Option ℚ × Option ℚ :=
  let overOutcome := market.outcomes.find? (fun o => o.name == "Over")
  let underOutcome := market.outcomes.find? (fun o => o.name == "Under")
  ((overOutcome.bind Outcome.point).orElse (fun _ => underOutcome.bind Outcome.point),
   overOutcome.map Outcome.price,
   underOutcome.map Outcome.price)

/-- The required-markets list passed by `normalizeEvent`
(src/unnamed/part_001 lines 75-135): spreads and totals. -/
def requiredMarkets : List String := ["spreads", "totals"]

/-- Embedding of `normalizeEvent` from src/unnamed/part_001 (spreads+totals variant):
preferred/any bookmaker with both markets, else partial extraction from the
first bookmaker, else null. -/
def normalizeEvent (event : OddsEvent) : Option NormalizedExpectation :=
  match findBookmakerWithMarkets event.bookmakers requiredMarkets with
  | none =>
    match event.bookmakers.head? with
    | none => none
    | some anyBookmaker =>
      let spreadsMarket := anyBookmaker.markets.find? (fun m => m.key == "spreads")
      let totalsMarket := anyBookmaker.markets.find? (fun m => m.key == "totals")
      if spreadsMarket.isNone && totalsMarket.isNone then none
      else
        let spreads := match spreadsMarket with
          | some m => extractSpreads m event.home_team
          | none => (none, none)
        let totals := match totalsMarket with
          | some m => extractTotals m
          | none => (none, none, none)
        some { externalEventId := event.id, sportKey := event.sport_key,
               commenceTime := event.commence_time, homeTeam := event.home_team,
               awayTeam := event.away_team,
               spreadHome := spreads.1, spreadAway := spreads.2,
               totalValue := totals.1, totalOverPrice := totals.2.1,
               totalUnderPrice := totals.2.2,
               bookmaker := some anyBookmaker.key }
  | some bookmaker =>
      let spreadsMarket := bookmaker.markets.find? (fun m => m.key == "spreads")
      let totalsMarket := bookmaker.markets.find? (fun m => m.key == "totals")
      let spreads := match spreadsMarket with
        | some m => extractSpreads m event.home_team
        | none => (none, none)
      let totals := match totalsMarket with
        | some m => extractTotals m
        | none => (none, none, none)
      some { externalEventId := event.id, sportKey := event.sport_key,
             commenceTime := event.commence_time, homeTeam := event.home_team,
             awayTeam := event.away_team,
             spreadHome := spreads.1, spreadAway := spreads.2,
             totalValue := totals.1, totalOverPrice := totals.2.1,
             totalUnderPrice := totals.2.2,
             bookmaker := some bookmaker.key }

/-- Embedding of `normalizeEvents`: map and drop nulls. -/
def normalizeEvents (events : List OddsEvent) : List NormalizedExpectation :=
  events.filterMap normalizeEvent

/-! ### Ingestion orchestrator (src/netlify/functions/ingest-odds.ts,
lines 245-691 variant: findOrCreateTeam / findOrCreateGame / processScores
/ ingestSport) -/

def hourMs : ℤ := 60 * 60 * 1000

/-- A drizzle `gte(scheduledTime, ws) && lte(scheduledTime, we)` filter:
a SQL comparison against a NULL timestamp matches nothing. -/
def inWindow (t : Option ℤ) (ws we : ℤ) : Bool :=
  match t with
  | none => false
  | some x => decide (ws ≤ x) && decide (x ≤ we)

/-- JS truthiness of a nullable string (`score.score` in processScores):
null and the empty string are falsy. -/
def truthyStr (s : Option String) : Bool :=
  match s with
  | none => false
  | some str => !str.isEmpty

/-- Digit-list accumulator for `jsParseInt`. -/
def parseNatDigits (cs : List Char) : Option ℕ :=
  match cs with
  | [] => none
  | _ :: _ =>
    cs.foldl
      (fun acc c => acc.bind (fun n =>
        if c.isDigit then some (n * 10 + (c.toNat - 48)) else none))
      (some 0)

/-- Embedding of `parseInt(s, 10)` on the decimal integer strings the scores API
returns.  `none` stands for NaN; a NaN snapshot insert is rejected by the
integer column and swallowed by the per-event catch, so no snapshot is
persisted in that case, matching the `none` branch below. -/
def jsParseInt (s : String) : Option ℤ :=
  match s.data with
  | [] => none
  | c :: cs =>
    if c = Char.ofNat 45 then (parseNatDigits cs).map (fun n => -(n : ℤ))
    else (parseNatDigits (c :: cs)).map (fun n => (n : ℤ))

/-- The score-parsing loop of `processScores` (ingest-odds.ts lines
404-416): walk `event.scores`, assigning home then away on name match. -/
def parseScores (ev : ScoreEvent) : Option ℤ × Option ℤ :=
  match ev.scores with
  | none => (none, none)
  | some entries =>
    entries.foldl
      (fun acc sc =>
        if sc.name == ev.home_team && truthyStr sc.score then
          (jsParseInt (sc.score.getD ""), acc.2)
        else if sc.name == ev.away_team && truthyStr sc.score then
          (acc.1, jsParseInt (sc.score.getD ""))
        else acc)
      (none, none)

/-- One iteration of the `processScores` loop (ingest-odds.ts lines
365-457): match teams by exact name, match the game in the ±12 h window,
compute the status transition, conditionally update the game row, and
insert a snapshot when both scores parsed.  Returns the new store and
whether a snapshot was written (the `updated` counter increment). -/
def processScoreEvent (db : DB) (ev : ScoreEvent) (now : ℤ) : DB × Bool :=
  match db.teams.find? (fun t => t.name == ev.home_team) with
  | none => (db, false)
  | some homeTeam =>
    match db.teams.find? (fun t => t.name == ev.away_team) with
    | none => (db, false)
    | some awayTeam =>
      match db.games.find? (fun g =>
          g.homeTeamId == homeTeam.id && g.awayTeamId == awayTeam.id &&
          inWindow g.scheduledTime (ev.commence_time - 12 * hourMs)
            (ev.commence_time + 12 * hourMs)) with
      | none => (db, false)
      | some game =>
        let homeScore := (parseScores ev).1
        let awayScore := (parseScores ev).2
        let newStatus :=
          if ev.completed then "completed"
          else if ev.commence_time ≤ now then "live"
          else "upcoming"
        let games1 :=
          if game.status ≠ newStatus then
            db.games.map (fun g =>
              if g.id == game.id then
                { g with status := newStatus,
                         completedAt := if ev.completed then some now else none }
              else g)
          else db.games
        match homeScore, awayScore with
        | some hs, some aw =>
          let scoreDiff := |hs - aw|
          let tensionScore :=
            if scoreDiff ≤ 10 then min 100 (50 + (10 - scoreDiff) * 5)
            else max 0 (50 - scoreDiff)
          ({ db with
              games := games1
              snapshots := db.snapshots ++
                [{ gameId := game.id, capturedAt := now,
                   tensionScore := tensionScore,
                   momentumShifts := 0, leadChanges := 0,
                   closeFinish := ev.completed && decide (scoreDiff ≤ 5),
                   isFinal := ev.completed,
                   stage := none, competitive := none, activityLevel := none,
                   homeScore := some hs, awayScore := some aw }] }, true)
        | _, _ => ({ db with games := games1 }, false)

/-- Embedding of `processScores`: fold of `processScoreEvent` over all score events,
accumulating the `updated` count. -/
def processScores (db : DB) (events : List ScoreEvent) (now : ℤ) : DB × ℕ :=
  events.foldl
    (fun acc ev =>
      let r := processScoreEvent acc.1 ev now
      (r.1, acc.2 + (if r.2 then 1 else 0)))
    (db, 0)

/-- Embedding of `findOrCreateTeam` (ingest-odds.ts lines 286-309): exact-name lookup,
else insert.  Returns ((id, created), store). -/
def findOrCreateTeam (db : DB) (teamName league : String) : (ℕ × Bool) × DB :=
  match db.teams.find? (fun t => t.name == teamName) with
  | some t => ((t.id, false), db)
  | none =>
    (((db.nextTeamId, true),
      { db with teams := db.teams ++ [{ id := db.nextTeamId, name := teamName,
                                        league := league }],
                nextTeamId := db.nextTeamId + 1 }))

/-- Embedding of `findOrCreateGame` (ingest-odds.ts lines 314-353): lookup by the
ordered team pair with scheduledTime within commenceTime ± 12 h, else
insert a new upcoming game at commenceTime. -/
def findOrCreateGame (db : DB) (homeTeamId awayTeamId : ℕ) (commenceTime : ℤ) :
    (ℕ × Bool) × DB :=
  match db.games.find? (fun g =>
      g.homeTeamId == homeTeamId && g.awayTeamId == awayTeamId &&
      inWindow g.scheduledTime (commenceTime - 12 * hourMs)
        (commenceTime + 12 * hourMs)) with
  | some g => ((g.id, false), db)
  | none =>
    (((db.nextGameId, true),
      { db with games := db.games ++
          [{ id := db.nextGameId, homeTeamId := homeTeamId,
             awayTeamId := awayTeamId, status := "upcoming",
             scheduledTime := some commenceTime, completedAt := none }],
                nextGameId := db.nextGameId + 1 }))

/-- The per-expectation body of the `ingestSport` loop (ingest-odds.ts
lines 499-554): reconcile both teams, reconcile the game, insert the
expectation row.  Returns the new store and (teamsCreated, gamesCreated)
increments. -/
def insertExpectationStep (db : DB) (league : String) (exp : NormalizedExpectation)
    (now : ℤ) : DB × (ℕ × ℕ) :=
  let home := findOrCreateTeam db exp.homeTeam league
  let away := findOrCreateTeam home.2 exp.awayTeam league
  let game := findOrCreateGame away.2 home.1.1 away.1.1 exp.commenceTime
  let row : ExpectationRow :=
    { gameId := some game.1.1, sportKey := exp.sportKey,
      externalEventId := exp.externalEventId, commenceTime := exp.commenceTime,
      homeTeam := exp.homeTeam, awayTeam := exp.awayTeam,
      spreadHome := exp.spreadHome, spreadAway := exp.spreadAway,
      totalValue := exp.totalValue, totalOverPrice := exp.totalOverPrice,
      totalUnderPrice := exp.totalUnderPrice, bookmaker := exp.bookmaker,
      source := "the-odds-api", capturedAt := now }
  ({ game.2 with expectations := game.2.expectations ++ [row] },
   ((if home.1.2 then 1 else 0) + (if away.1.2 then 1 else 0),
    if game.1.2 then 1 else 0))

structure IngestionResult where
  sportKey : String
  eventsProcessed : ℕ
  expectationsWritten : ℕ
  gamesCreated : ℕ
  teamsCreated : ℕ
  scoresUpdated : ℕ
  errors : List String
deriving DecidableEq

/-- The outcome of one `ingestSport` cycle: the summary record, the final
store, and the trace of external API calls attempted. -/
structure IngestOutcome where
  result : IngestionResult
  db : DB
  fetches : List String
deriving DecidableEq

/-- Embedding of `ingestSport` (ingest-odds.ts lines 469-582).  The two provider calls
are modelled by `Except` oracles; `fetches` records which external calls
the function attempts: `getOdds` is called unconditionally, and `getScores`
is called whenever `getOdds` succeeded — there is no activity-based gate in
the source. -/
def ingestSport (db : DB) (sportKey league : String)
    (oddsResp : Except String (List OddsEvent))
    (scoresResp : Except String (List ScoreEvent)) (now : ℤ) : IngestOutcome :=
  match oddsResp with
  | Except.error e =>
    { result := { sportKey := sportKey, eventsProcessed := 0,
                  expectationsWritten := 0, gamesCreated := 0, teamsCreated := 0,
                  scoresUpdated := 0, errors := ["API Error: " ++ e] },
      db := db, fetches := ["odds"] }
  | Except.ok events =>
    let expectations := normalizeEvents events
    let loopOut := expectations.foldl
      (fun (acc : DB × ℕ × ℕ × ℕ) exp =>
        let step := insertExpectationStep acc.1 league exp now
        (step.1, acc.2.1 + step.2.1, acc.2.2.1 + step.2.2, acc.2.2.2 + 1))
      (db, 0, 0, 0)
    match scoresResp with
    | Except.error e =>
      { result := { sportKey := sportKey, eventsProcessed := events.length,
                    expectationsWritten := loopOut.2.2.2,
                    gamesCreated := loopOut.2.2.1, teamsCreated := loopOut.2.1,
                    scoresUpdated := 0,
                    errors := ["Scores fetch error: " ++ e] },
        db := loopOut.1, fetches := ["odds", "scores"] }
    | Except.ok scoreEvents =>
      let scored := processScores loopOut.1 scoreEvents now
      { result := { sportKey := sportKey, eventsProcessed := events.length,
                    expectationsWritten := loopOut.2.2.2,
                    gamesCreated := loopOut.2.2.1, teamsCreated := loopOut.2.1,
                    scoresUpdated := scored.2, errors := [] },
        db := scored.1, fetches := ["odds", "scores"] }

/-! ### Manual NBA simulation ingestion (src/unnamed/part_000) -/

structure SimGameState where
  homeTeamName : String
  awayTeamName : String
  quarter : ℤ
  clockSeconds : ℤ
  homeScore : ℤ
  awayScore : ℤ
  status : String
deriving DecidableEq

/-- The snapshot derived and inserted by the manual NBA ingestion handler
(src/unnamed/part_000 lines 155-184): the only path that runs the
Stage/Competitiveness/Activity/Tension components.  `Math.floor` of the
non-negative quotients is integer division. -/
def nbaSimSnapshot (gameId : ℕ) (gs : SimGameState) (now : ℤ) : SnapshotRow :=
  let scoreDiff := gs.homeScore - gs.awayScore
  let stage := Nba.getStage gs.quarter gs.clockSeconds
  let competitive := Nba.isCompetitive scoreDiff stage
  let activityLevel :=
    Nba.getActivityLevel gs.homeScore gs.awayScore gs.quarter gs.clockSeconds
  let tensionScore := Nba.calculateTensionScore scoreDiff stage competitive
  let isFinal := gs.status == "completed"
  { gameId := gameId, capturedAt := now, tensionScore := tensionScore,
    momentumShifts := |scoreDiff| / 5,
    leadChanges := if competitive then tensionScore / 20 else 0,
    closeFinish := isFinal && decide (|scoreDiff| ≤ 5),
    isFinal := isFinal,
    stage := some stage, competitive := some competitive,
    activityLevel := some activityLevel,
    homeScore := some gs.homeScore, awayScore := some gs.awayScore }

/-! ### Snapshot selection (src/unnamed/part_005, derive-priority.ts) -/

/-- Embedding of `getLatestSnapshot`: the isFinal row if any, else the reduce-maximum
of capturedAt (JS `reduce` starts from the head). -/
def getLatestSnapshot (snapshots : List SnapshotRow) : Option SnapshotRow :=
  match snapshots with
  | [] => none
  | s :: rest =>
    match (s :: rest).find? (fun x => x.isFinal) with
    | some finalSnapshot => some finalSnapshot
    | none =>
      some (rest.foldl
        (fun latest current =>
          if latest.capturedAt < current.capturedAt then current else latest) s)

/-! ### C6: snapshot selection -/

lemma latestFold_mem (rest : List SnapshotRow) : ∀ s : SnapshotRow,
    rest.foldl (fun latest current =>
      if latest.capturedAt < current.capturedAt then current else latest) s ∈
      s :: rest := by
  induction rest with
  | nil => intro s; simp
  | cons c t ih =>
    intro s
    simp only [List.foldl_cons]
    have hm := ih (if s.capturedAt < c.capturedAt then c else s)
    rcases List.mem_cons.mp hm with h1 | h1
    · rw [h1]
      split_ifs
      · exact List.mem_cons_of_mem _ (List.mem_cons_self _ _)
      · exact List.mem_cons_self _ _
    · exact List.mem_cons_of_mem _ (List.mem_cons_of_mem _ h1)

lemma latestFold_ge (rest : List SnapshotRow) : ∀ s : SnapshotRow,
    s.capturedAt ≤ (rest.foldl (fun latest current =>
      if latest.capturedAt < current.capturedAt then current else latest) s).capturedAt ∧
    ∀ x ∈ rest, x.capturedAt ≤ (rest.foldl (fun latest current =>
      if latest.capturedAt < current.capturedAt then current else latest) s).capturedAt := by
  induction rest with
  | nil => intro s; simp
  | cons c t ih =>
    intro s
    simp only [List.foldl_cons]
    obtain ⟨h1, h2⟩ := ih (if s.capturedAt < c.capturedAt then c else s)
    refine ⟨le_trans ?_ h1, fun x hx => ?_⟩
    · split_ifs with h
      · exact le_of_lt h
      · exact le_refl _
    · rcases List.mem_cons.mp hx with rfl | hx
      · refine le_trans ?_ h1
        split_ifs with h
        · exact le_refl _
        · exact le_of_not_lt h
      · exact h2 x hx

def exS1 : SnapshotRow :=
  { gameId := 0, capturedAt := 1, tensionScore := 40, momentumShifts := 0,
    leadChanges := 0, closeFinish := false, isFinal := false, stage := none,
    competitive := none, activityLevel := none, homeScore := none, awayScore := none }

def exS2 : SnapshotRow :=
  { gameId := 0, capturedAt := 2, tensionScore := 80, momentumShifts := 0,
    leadChanges := 0, closeFinish := true, isFinal := true, stage := none,
    competitive := none, activityLevel := none, homeScore := none, awayScore := none }

def exS3 : SnapshotRow :=
  { gameId := 0, capturedAt := 3, tensionScore := 60, momentumShifts := 0,
    leadChanges := 0, closeFinish := false, isFinal := false, stage := none,
    competitive := none, activityLevel := none, homeScore := none, awayScore := none }

/-- C6: for every non-empty snapshot list, `getLatestSnapshot` returns a
member; it returns an isFinal-flagged snapshot whenever one exists, and
otherwise a member with maximal capturedAt; in particular, on
S1 (t=1, not final), S2 (t=2, final), S3 (t=3, not final) it returns S2 —
the final flag wins over recency. -/
theorem c6_latest_snapshot_selection :
    (∀ l : List SnapshotRow, l ≠ [] →
      (∃ s, getLatestSnapshot l = some s ∧ s ∈ l) ∧
      ((∃ f ∈ l, f.isFinal = true) →
        ∃ s, getLatestSnapshot l = some s ∧ s.isFinal = true) ∧
      ((∀ f ∈ l, f.isFinal = false) →
        ∃ s, getLatestSnapshot l = some s ∧ s ∈ l ∧
          ∀ x ∈ l, x.capturedAt ≤ s.capturedAt)) ∧
    getLatestSnapshot [exS1, exS2, exS3] = some exS2 := by
  constructor
  · intro l hne
    cases l with
    | nil => exact absurd rfl hne
    | cons s rest =>
      cases hf : (s :: rest).find? (fun x => x.isFinal) with
      | some f =>
        have hg : getLatestSnapshot (s :: rest) = some f := by
          simp only [getLatestSnapshot, hf]
        refine ⟨⟨f, hg, List.mem_of_find?_eq_some hf⟩,
          fun _ => ⟨f, hg, List.find?_some hf⟩, fun hall => ?_⟩
        have h1 := List.find?_some hf
        have h2 := List.mem_of_find?_eq_some hf
        rw [hall f h2] at h1
        exact absurd h1 (by simp)
      | none =>
        have hg : getLatestSnapshot (s :: rest) =
            some (rest.foldl (fun latest current =>
              if latest.capturedAt < current.capturedAt then current else latest) s) := by
          simp only [getLatestSnapshot, hf]
        refine ⟨⟨_, hg, latestFold_mem rest s⟩, fun hex => ?_,
          fun hall => ⟨_, hg, latestFold_mem rest s, fun x hx => ?_⟩⟩
        · obtain ⟨f, hfm, hff⟩ := hex
          have := List.find?_eq_none.mp hf f hfm
          simp [hff] at this
        · rcases List.mem_cons.mp hx with rfl | hx
          · exact (latestFold_ge rest x).1
          · exact (latestFold_ge rest s).2 x hx
  · decide

/-- C6 witness: the selection rule applied to the concrete S1/S2/S3
scenario, discharging the non-emptiness and final-existence hypotheses. -/
theorem c6_latest_snapshot_selection_witness :
    ∃ s, getLatestSnapshot [exS1, exS2, exS3] = some s ∧ s.isFinal = true :=
  (c6_latest_snapshot_selection.1 [exS1, exS2, exS3] (by decide)).2.1
    ⟨exS2, by decide, by decide⟩

/-! ### C7: event normalizer -/

lemma hasRequired_false_of_no_spreads (b : Bookmaker)
    (hns : b.markets.find? (fun m => m.key == "spreads") = none) :
    hasRequiredMarkets b requiredMarkets = false := by
  unfold hasRequiredMarkets requiredMarkets
  have hany : b.markets.any (fun mk => mk.key == "spreads") = false := by
    rw [List.any_eq_false]
    intro m hm
    have h := List.find?_eq_none.mp hns m hm
    simpa using h
  simp [hany]

lemma findBookmaker_none_of_singleton_no_spreads (b : Bookmaker)
    (hns : b.markets.find? (fun m => m.key == "spreads") = none) :
    findBookmakerWithMarkets [b] requiredMarkets = none := by
  have hh := hasRequired_false_of_no_spreads b hns
  unfold findBookmakerWithMarkets
  have hpref : ∀ ps : List String, findPreferred ps [b] requiredMarkets = none := by
    intro ps
    induction ps with
    | nil => rfl
    | cons p pt ih => simp [findPreferred, List.find?, hh, ih]
  rw [hpref]
  simp [List.find?, hh]

/-- C7: the Event Normalizer returns null on an event with zero
bookmakers; and on an event whose single bookmaker has no spreads market
but does offer a totals market (with spreads and totals both required),
it returns a record with null spreads and the totals fields extracted from
that totals market — the partial-data path — rather than dropping the
event. -/
theorem c7_event_normalizer :
    (∀ ev : OddsEvent, ev.bookmakers = [] → normalizeEvent ev = none) ∧
    (∀ (ev : OddsEvent) (b : Bookmaker) (tm : Market),
      ev.bookmakers = [b] →
      b.markets.find? (fun m => m.key == "spreads") = none →
      b.markets.find? (fun m => m.key == "totals") = some tm →
      ∃ r, normalizeEvent ev = some r ∧
        r.spreadHome = none ∧ r.spreadAway = none ∧
        r.totalValue = (extractTotals tm).1 ∧
        r.totalOverPrice = (extractTotals tm).2.1 ∧
        r.totalUnderPrice = (extractTotals tm).2.2 ∧
        r.bookmaker = some b.key) := by
  constructor
  · intro ev hb
    unfold normalizeEvent
    rw [hb]
    rfl
  · intro ev b tm hb hns ht
    have hfb := findBookmaker_none_of_singleton_no_spreads b hns
    refine ⟨{ externalEventId := ev.id, sportKey := ev.sport_key,
              commenceTime := ev.commence_time, homeTeam := ev.home_team,
              awayTeam := ev.away_team, spreadHome := none, spreadAway := none,
              totalValue := (extractTotals tm).1,
              totalOverPrice := (extractTotals tm).2.1,
              totalUnderPrice := (extractTotals tm).2.2,
              bookmaker := some b.key }, ?_, rfl, rfl, rfl, rfl, rfl, rfl⟩
    unfold normalizeEvent
    rw [hb, hfb]
    simp [hns, ht]

def exTotalsMarket : Market :=
  { key := "totals",
    outcomes := [{ name := "Over", price := 1.91, point := some 220.5 },
                 { name := "Under", price := 1.95, point := some 220.5 }] }

def exTotalsOnlyBookmaker : Bookmaker :=
  { key := "bovada", markets := [exTotalsMarket] }

def exTotalsOnlyEvent : OddsEvent :=
  { id := "ev-totals", sport_key := "basketball_nba", commence_time := 0,
    home_team := "Boston Celtics", away_team := "Miami Heat",
    bookmakers := [exTotalsOnlyBookmaker] }

/-- C7 witness: the partial-data path on a concrete totals-only event. -/
theorem c7_event_normalizer_witness :
    ∃ r, normalizeEvent exTotalsOnlyEvent = some r ∧
      r.spreadHome = none ∧ r.spreadAway = none ∧
      r.totalValue = (extractTotals exTotalsMarket).1 ∧
      r.totalOverPrice = (extractTotals exTotalsMarket).2.1 ∧
      r.totalUnderPrice = (extractTotals exTotalsMarket).2.2 ∧
      r.bookmaker = some exTotalsOnlyBookmaker.key :=
  c7_event_normalizer.2 exTotalsOnlyEvent exTotalsOnlyBookmaker exTotalsMarket
    rfl rfl rfl

/-! ### C8: findOrCreateGame idempotence -/

/-- Abbreviation for the game row inserted by `findOrCreateGame`. -/
def newGameRow (db : DB) (h a : ℕ) (t : ℤ) : GameRow :=
  { id := db.nextGameId, homeTeamId := h, awayTeamId := a,
    status := "upcoming", scheduledTime := some t, completedAt := none }

/-- Abbreviation for the store after `findOrCreateGame` inserts. -/
def insertGameDB (db : DB) (h a : ℕ) (t : ℤ) : DB :=
  { db with
      games := db.games ++ [newGameRow db h a t]
      nextGameId := db.nextGameId + 1 }

lemma find?_append_eq {α} (l1 l2 : List α) (p : α → Bool) :
    (l1 ++ l2).find? p = ((l1.find? p).orElse (fun _ => l2.find? p)) := by
  induction l1 with
  | nil => simp
  | cons x xs ih =>
    by_cases hx : p x <;> simp [List.find?_cons, hx, ih]

/-- The Bool game-lookup predicate of `findOrCreateGame`, as a Prop. -/
lemma gameMatch_iff (g : GameRow) (h a : ℕ) (t : ℤ) :
    (g.homeTeamId == h && g.awayTeamId == a &&
      inWindow g.scheduledTime (t - 12 * hourMs) (t + 12 * hourMs)) = true ↔
    (g.homeTeamId = h ∧ g.awayTeamId = a ∧
      ∃ s, g.scheduledTime = some s ∧
        t - 12 * hourMs ≤ s ∧ s ≤ t + 12 * hourMs) := by
  cases hst : g.scheduledTime with
  | none => simp [inWindow, hst]
  | some s => simp [inWindow, hst, and_assoc]

/-- C8: calling `findOrCreateGame` a second time with the same ordered
team pair and commence time, on the store produced by the first call,
returns the first call's game id, reports created=false, and leaves the
store unchanged — so exactly one row is created across the two calls in
the fresh case and none otherwise.  The lookup succeeds exactly when some
existing game of that ordered pair has a scheduledTime within
commenceTime ± 12 hours, and then returns such a game's id without
inserting. -/
theorem c8_findOrCreateGame_idempotent (db : DB) (h a : ℕ) (t : ℤ) :
    (findOrCreateGame (findOrCreateGame db h a t).2 h a t).1.1 =
      (findOrCreateGame db h a t).1.1 ∧
    (findOrCreateGame (findOrCreateGame db h a t).2 h a t).1.2 = false ∧
    (findOrCreateGame (findOrCreateGame db h a t).2 h a t).2 =
      (findOrCreateGame db h a t).2 ∧
    ((findOrCreateGame db h a t).1.2 = true →
      (findOrCreateGame db h a t).2.games.length = db.games.length + 1) ∧
    ((findOrCreateGame db h a t).1.2 = false → (findOrCreateGame db h a t).2 = db) ∧
    ((findOrCreateGame db h a t).1.2 = false ↔
      ∃ g ∈ db.games, g.homeTeamId = h ∧ g.awayTeamId = a ∧
        ∃ s, g.scheduledTime = some s ∧
          t - 12 * hourMs ≤ s ∧ s ≤ t + 12 * hourMs) ∧
    ((findOrCreateGame db h a t).1.2 = false →
      ∃ g ∈ db.games, g.id = (findOrCreateGame db h a t).1.1 ∧
        g.homeTeamId = h ∧ g.awayTeamId = a ∧
        ∃ s, g.scheduledTime = some s ∧
          t - 12 * hourMs ≤ s ∧ s ≤ t + 12 * hourMs) := by
  cases hfind : db.games.find? (fun g =>
      g.homeTeamId == h && g.awayTeamId == a &&
      inWindow g.scheduledTime (t - 12 * hourMs) (t + 12 * hourMs)) with
  | some g =>
    have hb := List.find?_some hfind
    have hpred := (gameMatch_iff g h a t).mp hb
    have hmem := List.mem_of_find?_eq_some hfind
    have h1 : findOrCreateGame db h a t = ((g.id, false), db) := by
      simp only [findOrCreateGame, hfind]
    refine ⟨by simp [h1], by simp [h1], by simp [h1], ?_, by simp [h1], ?_, ?_⟩
    · intro hcon
      rw [h1] at hcon
      simp at hcon
    · exact ⟨fun _ => ⟨g, hmem, hpred⟩, fun _ => by simp [h1]⟩
    · intro _
      exact ⟨g, hmem, by simp [h1], hpred⟩
  | none =>
    have hnotin := List.find?_eq_none.mp hfind
    have h1 : findOrCreateGame db h a t =
        ((db.nextGameId, true), insertGameDB db h a t) := by
      simp only [findOrCreateGame, hfind, insertGameDB, newGameRow]
    have hb2 : ((newGameRow db h a t).homeTeamId == h &&
        (newGameRow db h a t).awayTeamId == a &&
        inWindow (newGameRow db h a t).scheduledTime
          (t - 12 * hourMs) (t + 12 * hourMs)) = true := by
      refine (gameMatch_iff _ h a t).mpr ⟨rfl, rfl, t, rfl, ?_, ?_⟩ <;>
        simp only [hourMs] <;> omega
    have h2 : (insertGameDB db h a t).games.find? (fun g =>
        g.homeTeamId == h && g.awayTeamId == a &&
        inWindow g.scheduledTime (t - 12 * hourMs) (t + 12 * hourMs)) =
        some (newGameRow db h a t) := by
      show (db.games ++ [newGameRow db h a t]).find? _ = _
      rw [find?_append_eq, hfind]
      simp [List.find?_cons, hb2]
    have h3 : findOrCreateGame (insertGameDB db h a t) h a t =
        (((newGameRow db h a t).id, false), insertGameDB db h a t) := by
      simp only [findOrCreateGame, h2]
    refine ⟨by simp [h1, h3, newGameRow], by simp [h1, h3], by simp [h1, h3],
      fun _ => by simp [h1, insertGameDB], ?_, ?_, ?_⟩
    · intro hcon
      rw [h1] at hcon
      simp at hcon
    · constructor
      · intro hcon
        rw [h1] at hcon
        simp at hcon
      · rintro ⟨g, hg, hm⟩
        exact absurd ((gameMatch_iff g h a t).mpr hm) (by simp [hnotin g hg])
    · intro hcon
      rw [h1] at hcon
      simp at hcon

/-- An empty relational store. -/
def emptyDB : DB :=
  { teams := [], games := [], snapshots := [], expectations := [],
    nextTeamId := 0, nextGameId := 0 }

/-- C8 witness: on an empty store the first call creates exactly one game
row and the second call returns the same id. -/
theorem c8_findOrCreateGame_idempotent_witness :
    (findOrCreateGame (findOrCreateGame emptyDB 1 2 0).2 1 2 0).1.1 =
      (findOrCreateGame emptyDB 1 2 0).1.1 ∧
    (findOrCreateGame emptyDB 1 2 0).2.games.length = emptyDB.games.length + 1 :=
  ⟨(c8_findOrCreateGame_idempotent emptyDB 1 2 0).1,
   (c8_findOrCreateGame_idempotent emptyDB 1 2 0).2.2.2.1 (by decide)⟩

/-! ### Concrete fixtures for the score-processing claims -/

def cTeamA : TeamRow := { id := 0, name := "Boston Celtics", league := "NBA" }

def cTeamB : TeamRow := { id := 1, name := "Miami Heat", league := "NBA" }

def cGame : GameRow :=
  { id := 0, homeTeamId := 0, awayTeamId := 1, status := "live",
    scheduledTime := some 1000, completedAt := none }

def cDB : DB :=
  { teams := [cTeamA, cTeamB], games := [cGame], snapshots := [],
    expectations := [], nextTeamId := 2, nextGameId := 1 }

/-- A completed score event, 98-95 (differential 3), matching `cGame`. -/
def cEv : ScoreEvent :=
  { id := "e1", commence_time := 1000, home_team := "Boston Celtics",
    away_team := "Miami Heat", completed := true,
    scores := some [{ name := "Boston Celtics", score := some "98" },
                    { name := "Miami Heat", score := some "95" }] }

def exSimGs : SimGameState :=
  { homeTeamName := "Phoenix Suns", awayTeamName := "Miami Heat",
    quarter := 4, clockSeconds := 0, homeScore := 108, awayScore := 110,
    status := "completed" }

/-! ### C10: closeFinish implies isFinal -/

/-- C10: every snapshot inserted by either snapshot-writing path satisfies
closeFinish = true → isFinal = true: the orchestrator's `processScores`
path only adds snapshots with that property (rows already present are
untouched), and the manual NBA simulation path sets closeFinish only
together with the completed/final flag. -/
theorem c10_closeFinish_implies_final :
    (∀ (db : DB) (ev : ScoreEvent) (now : ℤ) (s : SnapshotRow),
      s ∈ (processScoreEvent db ev now).1.snapshots →
      s ∈ db.snapshots ∨ (s.closeFinish = true → s.isFinal = true)) ∧
    (∀ (gid : ℕ) (gs : SimGameState) (now : ℤ),
      (nbaSimSnapshot gid gs now).closeFinish = true →
      (nbaSimSnapshot gid gs now).isFinal = true) := by
  constructor
  · intro db ev now s hs
    simp only [processScoreEvent] at hs
    split at hs
    · exact Or.inl hs
    · split at hs
      · exact Or.inl hs
      · split at hs
        · exact Or.inl hs
        · split at hs
          · rcases List.mem_append.mp hs with hmem | hmem
            · exact Or.inl hmem
            · right
              intro hcf
              rw [List.mem_singleton.mp hmem] at hcf ⊢
              simp only [Bool.and_eq_true] at hcf
              exact hcf.1
          · exact Or.inl hs
  · intro gid gs now hcf
    simp only [nbaSimSnapshot, Bool.and_eq_true] at hcf ⊢
    exact hcf.1

/-- The snapshot row `processScoreEvent` inserts for `cDB`/`cEv`. -/
def cRow : SnapshotRow :=
  { gameId := 0, capturedAt := 2000, tensionScore := 85, momentumShifts := 0,
    leadChanges := 0, closeFinish := true, isFinal := true, stage := none,
    competitive := none, activityLevel := none, homeScore := some 98,
    awayScore := some 95 }

/-- C10 witness: both paths at concrete inputs. -/
theorem c10_closeFinish_implies_final_witness :
    (cRow ∈ cDB.snapshots ∨ (cRow.closeFinish = true → cRow.isFinal = true)) ∧
    (nbaSimSnapshot 7 exSimGs 5).isFinal = true :=
  ⟨c10_closeFinish_implies_final.1 cDB cEv 2000 cRow (by decide),
   c10_closeFinish_implies_final.2 7 exSimGs 5 (by decide)⟩

/-! ### C9: status computation, write avoidance, completedAt, frame -/

/-- The status computation as the spec states it: completed if the
provider marks the event completed, else live once commenceTime ≤ now,
else upcoming. -/
def specStatus (ev : ScoreEvent) (now : ℤ) : String :=
  if ev.completed then "completed"
  else if ev.commence_time ≤ now then "live"
  else "upcoming"

lemma specStatus_completed_iff (ev : ScoreEvent) (now : ℤ) :
    specStatus ev now = "completed" ↔ ev.completed = true := by
  unfold specStatus
  cases hc : ev.completed with
  | true => simp
  | false =>
    refine iff_of_false ?_ (by simp)
    rw [if_neg (by simp)]
    split_ifs <;> simp

lemma processScoreEvent_games_eq (db : DB) (ev : ScoreEvent) (now : ℤ)
    (homeT awayT : TeamRow) (game : GameRow)
    (hht : db.teams.find? (fun t => t.name == ev.home_team) = some homeT)
    (hat : db.teams.find? (fun t => t.name == ev.away_team) = some awayT)
    (hgm : db.games.find? (fun g =>
        g.homeTeamId == homeT.id && g.awayTeamId == awayT.id &&
        inWindow g.scheduledTime (ev.commence_time - 12 * hourMs)
          (ev.commence_time + 12 * hourMs)) = some game) :
    (processScoreEvent db ev now).1.games =
      (if game.status ≠ specStatus ev now then
        db.games.map (fun g =>
          if g.id == game.id then
            { g with status := specStatus ev now,
                     completedAt := if ev.completed then some now else none }
          else g)
      else db.games) := by
  simp only [processScoreEvent, hht, hat, hgm, specStatus]
  split <;> rfl

/-- C9: for a score event matched to a game, the computed status is
completed/live/upcoming per `specStatus`; the game row is written only
when that status differs from the stored one; completedAt becomes now
exactly on a write into completed and null on any other write; and every
field other than status and completedAt — and every other game row — is
unchanged. -/
theorem c9_status_transition (db : DB) (ev : ScoreEvent) (now : ℤ)
    (homeT awayT : TeamRow) (game : GameRow)
    (hht : db.teams.find? (fun t => t.name == ev.home_team) = some homeT)
    (hat : db.teams.find? (fun t => t.name == ev.away_team) = some awayT)
    (hgm : db.games.find? (fun g =>
        g.homeTeamId == homeT.id && g.awayTeamId == awayT.id &&
        inWindow g.scheduledTime (ev.commence_time - 12 * hourMs)
          (ev.commence_time + 12 * hourMs)) = some game) :
    (game.status = specStatus ev now →
      (processScoreEvent db ev now).1.games = db.games) ∧
    List.Forall₂ (fun gOld gNew =>
        gNew.id = gOld.id ∧ gNew.homeTeamId = gOld.homeTeamId ∧
        gNew.awayTeamId = gOld.awayTeamId ∧
        gNew.scheduledTime = gOld.scheduledTime ∧
        (gOld.id ≠ game.id → gNew = gOld) ∧
        (game.status = specStatus ev now → gNew = gOld) ∧
        (gOld.id = game.id → game.status ≠ specStatus ev now →
          gNew.status = specStatus ev now ∧
          gNew.completedAt =
            (if specStatus ev now = "completed" then some now else none)))
      db.games (processScoreEvent db ev now).1.games := by
  have hg := processScoreEvent_games_eq db ev now homeT awayT game hht hat hgm
  constructor
  · intro heq
    have hcond : ¬(game.status ≠ specStatus ev now) := fun hne => hne heq
    rw [hg, if_neg hcond]
  · rw [hg]
    by_cases hst : game.status = specStatus ev now
    · have hcond : ¬(game.status ≠ specStatus ev now) := fun hne => hne hst
      rw [if_neg hcond]
      refine List.forall₂_same.mpr (fun g _ => ?_)
      exact ⟨rfl, rfl, rfl, rfl, fun _ => rfl, fun _ => rfl,
        fun _ hne => absurd hst hne⟩
    · rw [if_pos hst]
      rw [List.forall₂_map_right_iff]
      refine List.forall₂_same.mpr (fun g _ => ?_)
      by_cases hid : g.id = game.id
      · have hbeq : (g.id == game.id) = true := beq_iff_eq.mpr hid
        refine ⟨by simp [hbeq], by simp [hbeq], by simp [hbeq], by simp [hbeq],
          fun hne => absurd hid hne, fun hs2 => absurd hs2 hst,
          fun _ _ => ⟨by simp [hbeq], ?_⟩⟩
        simp only [hbeq, if_true]
        by_cases hc : ev.completed
        · simp [hc, (specStatus_completed_iff ev now).mpr hc]
        · have : specStatus ev now ≠ "completed" := by
            intro hcon
            exact hc ((specStatus_completed_iff ev now).mp hcon)
          simp [hc, this]
      · have hbeq : (g.id == game.id) = false := by
          simp [hid]
        refine ⟨by simp [hbeq], by simp [hbeq], by simp [hbeq], by simp [hbeq],
          fun _ => by simp [hbeq], fun hs2 => absurd hs2 hst,
          fun hid2 _ => absurd hid2 hid⟩

/-- C9 witness: the transition live → completed on the concrete fixtures,
with the three lookup hypotheses discharged by evaluation. -/
theorem c9_status_transition_witness :
    (cGame.status = specStatus cEv 2000 →
      (processScoreEvent cDB cEv 2000).1.games = cDB.games) ∧
    List.Forall₂ (fun gOld gNew =>
        gNew.id = gOld.id ∧ gNew.homeTeamId = gOld.homeTeamId ∧
        gNew.awayTeamId = gOld.awayTeamId ∧
        gNew.scheduledTime = gOld.scheduledTime ∧
        (gOld.id ≠ cGame.id → gNew = gOld) ∧
        (cGame.status = specStatus cEv 2000 → gNew = gOld) ∧
        (gOld.id = cGame.id → cGame.status ≠ specStatus cEv 2000 →
          gNew.status = specStatus cEv 2000 ∧
          gNew.completedAt =
            (if specStatus cEv 2000 = "completed" then some 2000 else none)))
      cDB.games (processScoreEvent cDB cEv 2000).1.games :=
  c9_status_transition cDB cEv 2000 cTeamA cTeamB cGame rfl rfl rfl

/-! ### C1: what the orchestrator actually persists -/

lemma nba_isComp_3_early : Nba.isCompetitive 3 "early" = true := by decide

lemma nba_isComp_3_mid : Nba.isCompetitive 3 "mid" = true := by decide

lemma nba_isComp_3_late : Nba.isCompetitive 3 "late" = true := by decide

/-- C1 counterexample: on the concrete matched score event `cEv`
(98-95, both scores available), the snapshot `processScores` persists has
stage/competitive/activityLevel all null — not Stage/Competitiveness/
Activity classifier outputs — and tensionScore 85, which differs from
`calculateTensionScore(3, stage, isCompetitive(3, stage))` for every
stage (61, 82 and 100 for early/mid/late). -/
theorem c1_orchestrator_counterexample :
    (processScoreEvent cDB cEv 2000).1.snapshots.map
        (fun s => (s.stage, s.competitive, s.activityLevel, s.tensionScore)) =
      [(none, none, none, 85)] ∧
    Nba.calculateTensionScore 3 "early" (Nba.isCompetitive 3 "early") = 61 ∧
    Nba.calculateTensionScore 3 "mid" (Nba.isCompetitive 3 "mid") = 82 ∧
    Nba.calculateTensionScore 3 "late" (Nba.isCompetitive 3 "late") = 100 ∧
    (85 : ℤ) ≠ 61 ∧ (85 : ℤ) ≠ 82 ∧ (85 : ℤ) ≠ 100 := by
  refine ⟨by decide, ?_, ?_, ?_, by decide, by decide, by decide⟩
  · rw [nba_isComp_3_early]
    norm_num [Nba.calculateTensionScore, nba_mult_early, jsRound]
  · rw [nba_isComp_3_mid]
    norm_num [Nba.calculateTensionScore, nba_mult_mid, jsRound]
  · rw [nba_isComp_3_late]
    norm_num [Nba.calculateTensionScore, nba_mult_late, jsRound]

/-- C1 (amended): for every score event processed by the orchestrator in
which both scores are available, the snapshot persisted for the matched
game is not derived through the Stage/Competitiveness/Activity/Tension
components: its stage, competitive and activityLevel fields are left null,
momentumShifts and leadChanges are 0, and its tensionScore comes from the
inline closeness heuristic — min(100, 50 + (10 − d)·5) when the
differential d is ≤ 10, else max(0, 50 − d).  (The component pipeline runs
only in the manual NBA simulation handler, cf. `nbaSimSnapshot`.) -/
theorem c1_orchestrator_snapshot (db : DB) (ev : ScoreEvent) (now : ℤ)
    (homeT awayT : TeamRow) (game : GameRow) (hs aw : ℤ)
    (hht : db.teams.find? (fun t => t.name == ev.home_team) = some homeT)
    (hat : db.teams.find? (fun t => t.name == ev.away_team) = some awayT)
    (hgm : db.games.find? (fun g =>
        g.homeTeamId == homeT.id && g.awayTeamId == awayT.id &&
        inWindow g.scheduledTime (ev.commence_time - 12 * hourMs)
          (ev.commence_time + 12 * hourMs)) = some game)
    (hparse : parseScores ev = (some hs, some aw)) :
    (processScoreEvent db ev now).1.snapshots = db.snapshots ++
      [{ gameId := game.id, capturedAt := now,
         tensionScore :=
           if |hs - aw| ≤ 10 then min 100 (50 + (10 - |hs - aw|) * 5)
           else max 0 (50 - |hs - aw|),
         momentumShifts := 0, leadChanges := 0,
         closeFinish := ev.completed && decide (|hs - aw| ≤ 5),
         isFinal := ev.completed,
         stage := none, competitive := none, activityLevel := none,
         homeScore := some hs, awayScore := some aw }] ∧
    (processScoreEvent db ev now).2 = true := by
  constructor <;> simp only [processScoreEvent, hht, hat, hgm, hparse]

/-- C1 witness: the amended statement on the concrete fixtures. -/
theorem c1_orchestrator_snapshot_witness :
    (processScoreEvent cDB cEv 2000).1.snapshots = cDB.snapshots ++
      [{ gameId := cGame.id, capturedAt := 2000,
         tensionScore :=
           if |(98 : ℤ) - 95| ≤ 10 then min 100 (50 + (10 - |(98 : ℤ) - 95|) * 5)
           else max 0 (50 - |(98 : ℤ) - 95|),
         momentumShifts := 0, leadChanges := 0,
         closeFinish := cEv.completed && decide ((|98 - 95| : ℤ) ≤ 5),
         isFinal := cEv.completed,
         stage := none, competitive := none, activityLevel := none,
         homeScore := some 98, awayScore := some 95 }] ∧
    (processScoreEvent cDB cEv 2000).2 = true :=
  c1_orchestrator_snapshot cDB cEv 2000 cTeamA cTeamB cGame 98 95
    rfl rfl rfl (by decide)

/-! ### C2: there is no activity-based fetch gate -/

/-- The low-activity condition the spec's Fetch Scheduler is said to test
(zero live games, zero upcoming games in the [now − 3 h, now] lookback,
zero upcoming games in the [now, now + 1 h] starting-soon window), stated
over the store.  No such scheduler exists in the source; this definition
only states the claim's hypothesis. -/
def specFetchSchedulerLowActivity (db : DB) (now : ℤ) : Prop :=
  (db.games.filter (fun g => g.status == "live")).length = 0 ∧
  (db.games.filter (fun g => g.status == "upcoming" &&
    inWindow g.scheduledTime (now - 3 * hourMs) now)).length = 0 ∧
  (db.games.filter (fun g => g.status == "upcoming" &&
    inWindow g.scheduledTime now (now + hourMs))).length = 0

/-- C2 counterexample: on an empty store — zero live games, zero upcoming
games in either window, at any invocation time — `ingestSport` still
attempts both external calls (odds and scores); no skip decision exists in
the code. -/
theorem c2_fetch_scheduler_counterexample :
    specFetchSchedulerLowActivity emptyDB 0 ∧
    (ingestSport emptyDB "basketball_nba" "NBA"
        (Except.ok []) (Except.ok []) 0).fetches = ["odds", "scores"] ∧
    (["odds", "scores"] : List String) ≠ [] := by
  refine ⟨⟨rfl, rfl, rfl⟩, rfl, by decide⟩

/-- C2 (amended): `ingestSport` consults no store state before fetching —
the trace of attempted external calls is identical for any two stores and
invocation times, always starts with the odds call, and is never empty;
the scores call is attempted exactly when the odds fetch succeeded. -/
theorem c2_fetch_unconditional (db dbAlt : DB) (sk lg : String)
    (oddsResp : Except String (List OddsEvent))
    (scoresResp : Except String (List ScoreEvent)) (now nowAlt : ℤ) :
    (ingestSport db sk lg oddsResp scoresResp now).fetches =
      (ingestSport dbAlt sk lg oddsResp scoresResp nowAlt).fetches ∧
    (ingestSport db sk lg oddsResp scoresResp now).fetches ≠ [] ∧
    (ingestSport db sk lg oddsResp scoresResp now).fetches.head? = some "odds" ∧
    ((ingestSport db sk lg oddsResp scoresResp now).fetches = ["odds", "scores"] ↔
      ∃ events, oddsResp = Except.ok events) := by
  cases oddsResp <;> cases scoresResp <;> simp [ingestSport]
